import Mathlib

/-!
Verification of the parallel test-orchestration engine of `test.py`
(ns-3 test harness): worker threads, result collection, outcome
classification, rerun filtering, fullness tiers, cancellation.

The Python source is shallowly embedded: `Job` mirrors the `Job` class,
`worker_step` the body of `worker_thread.run`, `count_step` /
`record_step` the result-collection loop of `run_tests`,
`previously_successful` the extraction in
`load_previously_successful_tests`, and `fullness_skip` the
fullness-tier gating of example dispatch.  Subprocess execution is an
oracle `exec : Job → Int` giving the exit code; temp result files are an
oracle `tmp : Job → Option TmpFile`.
-/

namespace TestPy

/-- Outcome taxonomy used by the collector (`status` strings in `run_tests`). -/
inductive Status
  | PASS
  | FAIL
  | VALGR
  | CRASH
  | SKIP
deriving DecidableEq, Repr

/-- The status token as printed / written to the report. -/
def Status.text : Status → String
  | .PASS => "PASS"
  | .FAIL => "FAIL"
  | .VALGR => "VALGR"
  | .CRASH => "CRASH"
  | .SKIP => "SKIP"

/-- Fullness tiers (`--fullness` argparse choices and the validated
per-example tier from `examples-to-run` files). -/
inductive Fullness
  | QUICK
  | EXTENSIVE
  | TAKES_FOREVER
deriving DecidableEq, Repr

/-- The tier as the string used in commands and skip reasons. -/
def Fullness.text : Fullness → String
  | .QUICK => "QUICK"
  | .EXTENSIVE => "EXTENSIVE"
  | .TAKES_FOREVER => "TAKES_FOREVER"

/-- Inclusion order Quick < Extensive < TakesForever. -/
def Fullness.rank : Fullness → Nat
  | .QUICK => 0
  | .EXTENSIVE => 1
  | .TAKES_FOREVER => 2

/-- The `Job` class of `test.py` (fields relevant to dispatch and
collection; `returncode` is initialised to `False == 0` in the source). -/
structure Job where
  is_break : Bool := false
  is_skip : Bool := false
  skip_reason : String := ""
  is_example : Bool := false
  is_pyexample : Bool := false
  shell_command : String := ""
  display_name : String := ""
  tmp_file_name : String := ""
  returncode : Int := 0
deriving DecidableEq, Repr

/-- The configuration flags of `args` that the embedded code paths read. -/
structure Args where
  valgrind : Bool := false
  rerun_failed : Bool := false
  multiple : Bool := false
  fullness : Fullness := .QUICK
deriving DecidableEq, Repr

/-- What one iteration of `worker_thread.run` does with a dequeued job:
either the worker terminates (break sentinel), or it pushes a job to the
output queue; `launched` records whether `run_job_synchronously` was
invoked (a subprocess was launched). -/
inductive WorkerOut
  | terminated
  | pushed (launched : Bool) (job : Job)
deriving DecidableEq, Repr

/-- One iteration of `worker_thread.run`: check `is_break`, then the
global `thread_exit` cancellation flag, then `is_skip`; otherwise launch
the subprocess (exit code given by the oracle `exec`). -/
def worker_step (thread_exit : Bool) (exec : Job → Int) (job : Job) : WorkerOut :=
  if job.is_break then
    .terminated
  else if thread_exit then
    .pushed false { job with is_break := true }
  else if job.is_skip then
    .pushed false job
  else
    .pushed true { job with returncode := exec job }

/-- What a worker iteration contributes to the output queue. -/
def worker_push (thread_exit : Bool) (exec : Job → Int) (job : Job) : List Job :=
  match worker_step thread_exit exec job with
  | .terminated => []
  | .pushed _ j => [j]

/-- The results-queue contents for a run in which the cancellation flag
`thread_exit` becomes true after the first `K` dispatched jobs have been
dequeued: job number `i` (0-based) observes the flag set iff `K ≤ i`. -/
def worker_outputs (K : Nat) (exec : Job → Int) : List Job → List Job
  | [] => []
  | j :: rest => worker_push (K == 0) exec j ++ worker_outputs (K - 1) exec rest

/-- Processing of a prefix of the job list when the flag is never
observed set. -/
def worker_outputs_run (exec : Job → Int) : List Job → List Job
  | [] => []
  | j :: rest => worker_push false exec j ++ worker_outputs_run exec rest

/-- The summary counters maintained by the collection loop. -/
structure Counters where
  passed : Nat := 0
  skipped : Nat := 0
  failed : Nat := 0
  crashed : Nat := 0
  valgrind_errors : Nat := 0
deriving DecidableEq, Repr

/-- One iteration of the counter updates in the collection loop of
`run_tests`: break jobs are ignored, skips counted, otherwise the exit
code is classified 0/1/2/other. -/
def count_step (c : Counters) (job : Job) : Counters :=
  if job.is_break then c
  else if job.is_skip then { c with skipped := c.skipped + 1 }
  else if job.returncode = 0 then { c with passed := c.passed + 1 }
  else if job.returncode = 1 then { c with failed := c.failed + 1 }
  else if job.returncode = 2 then { c with valgrind_errors := c.valgrind_errors + 1 }
  else { c with crashed := c.crashed + 1 }

/-- Counters after draining a list of completed jobs. -/
def collect_counts (jobs : List Job) : Counters :=
  jobs.foldl count_step {}

/-- The exit-code classification performed by the collection loop
(`if job.returncode == 0 ... elif 1 ... elif 2 ... else`). -/
def classify_returncode (rc : Int) : Status :=
  if rc = 0 then .PASS
  else if rc = 1 then .FAIL
  else if rc = 2 then .VALGR
  else .CRASH

/-- The `status` value the collector assigns to a drained job. -/
def job_status (job : Job) : Status :=
  if job.is_skip then .SKIP else classify_returncode job.returncode

/-- One per-unit record of the XML Run Report (`<Test>`/`<Example>`
elements with Name, Result and optional Reason). -/
structure Record where
  kind : String
  name : String
  result : String
  reason : Option String
deriving DecidableEq, Repr

/-- What the collector appends to the report file for one drained job:
either a structured record, or raw temp-file contents copied verbatim. -/
inductive Entry
  | record (r : Record)
  | raw (s : String)
deriving DecidableEq, Repr

/-- The temp result file of a suite: a well-formed document that `ET.parse`
accepts (a list of records), or malformed contents (parse fails). -/
inductive TmpFile
  | doc (records : List Record)
  | text (contents : String)
deriving DecidableEq, Repr

/-- Python `s.find(pat)` on character lists: index of the first
occurrence of `pat`, or `none`. -/
def find_sub (pat : List Char) : List Char → Option Nat
  | [] => if pat = [] then some 0 else none
  | c :: rest =>
    if pat.isPrefixOf (c :: rest) then some 0
    else (find_sub pat rest).map (· + 1)

/-- Python `s.find(pat)`: first index or `-1`. -/
def py_find (s pat : String) : Int :=
  match find_sub pat.data s.data with
  | some n => (n : Int)
  | none => -1

/-- Normalise a Python slice bound for a string of length `n`. -/
def py_index (n : Nat) (i : Int) : Nat :=
  min ((if i < 0 then (n : Int) + i else i).toNat) n

/-- Python `s[:i]`. -/
def py_slice_to (s : String) (i : Int) : String :=
  ⟨s.data.take (py_index s.data.length i)⟩

/-- Python `s[i:]`. -/
def py_slice_from (s : String) (i : Int) : String :=
  ⟨s.data.drop (py_index s.data.length i)⟩

/-- The in-place valgrind patch of a serialized suite record:
`contents[:find("<Result>")+8] + "VALGR" + contents[find("</Result>"):]`. -/
def valgr_splice (contents : String) : String :=
  let pre := py_find contents "<Result>" + 8
  let post := py_find contents "</Result>"
  py_slice_to contents pre ++ "VALGR" ++ py_slice_from contents post

/-- The structural effect of the valgrind patch on a parsed well-formed
document: the first `<Result>` in the file belongs to the first record. -/
def splice_valgr_doc : List Record → List Record
  | [] => []
  | r :: rs => { r with result := "VALGR" } :: rs

/-- What the collection loop appends to the Run Report for one drained
job, given the oracle `tmp` for suite temp result files (`none` =
missing file, in which case `open` raises).  Mirrors the
example/suite branches of the loop in `run_tests`. -/
def record_step (tmp : Job → Option TmpFile) (job : Job) : Except String (List Entry) :=
  if job.is_break then .ok []
  else
    let status := job_status job
    if job.is_example || job.is_pyexample then
      .ok [.record
        { kind := "Example", name := job.display_name, result := status.text,
          reason := if job.is_skip then some job.skip_reason else none }]
    else if job.is_skip then
      .ok [.record
        { kind := "Test", name := job.display_name, result := "SKIP",
          reason := some job.skip_reason }]
    else if job.returncode = 0 ∨ job.returncode = 1 ∨ job.returncode = 2 then
      match tmp job with
      | none => .error ("FileNotFoundError: " ++ job.tmp_file_name)
      | some (.doc recs) =>
        .ok ((if status = .VALGR then splice_valgr_doc recs else recs).map Entry.record)
      | some (.text contents) =>
        .ok [.raw (if status = .VALGR then valgr_splice contents else contents)]
    else
      .ok [.record { kind := "Test", name := job.display_name, result := "CRASH", reason := none }]

/-- Report entries produced by draining a list of completed jobs; an
uncaught exception from `record_step` aborts the loop. -/
def collect_entries (tmp : Job → Option TmpFile) : List Job → Except String (List Entry)
  | [] => .ok []
  | j :: rest => do
    let e ← record_step tmp j
    let es ← collect_entries tmp rest
    pure (e ++ es)

/-- The fullness gating applied to example dispatch in `run_tests`:
`some reason` when the entry is skipped, `none` when it is executed. -/
def fullness_skip (requested entry : Fullness) : Option String :=
  if requested = .QUICK ∧ entry ≠ .QUICK then
    some ("skip " ++ entry.text ++ " examples when QUICK run selected")
  else if requested = .EXTENSIVE ∧ entry ≠ .EXTENSIVE ∧ entry ≠ .QUICK then
    some ("skip " ++ entry.text ++ " examples when EXTENSIVE run selected")
  else
    none

/-- A prior Run Report, already parsed: the (Name, Result) pairs of its
`<Test>` and `<Example>` elements. -/
structure PriorReport where
  tests : List (String × String)
  examples : List (String × String)
deriving DecidableEq, Repr

/-- The extraction in `load_previously_successful_tests`: names of the
records whose Result is in `["PASS", "SKIP"]`. -/
def previously_successful (records : List (String × String)) : List String :=
  (records.filter fun x => decide (x.2 ∈ (["PASS", "SKIP"] : List String))).map Prod.fst

/-- The dictionary returned by `load_previously_successful_tests`. -/
structure PrevToSkip where
  tests : List String := []
  examples : List String := []
deriving DecidableEq, Repr

/-- `load_previously_successful_tests`, applied to an already-parsed
most-recent report. -/
def load_previously_successful_tests (r : PriorReport) : PrevToSkip :=
  { tests := previously_successful r.tests
    examples := previously_successful r.examples }

/-- Python `os.path.basename` on POSIX paths. -/
def basename (path : String) : String :=
  (path.splitOn "/").getLastD path

/-- Selection of the most recent report file:
`sorted(files, key=basename, reverse=True)[0]` (stable, so ties keep
the earliest element). -/
def latest_result_file (files : List String) : Option String :=
  files.foldl
    (fun acc f =>
      match acc with
      | none => some f
      | some g => if basename g < basename f then some f else some g)
    none

/-- The rerun-failed marking applied to one catalog job at dispatch
(`if args.rerun_failed and test in previously_run_tests_to_skip[...]`). -/
def mark_rerun (rerun_failed : Bool) (prev : List String) (job : Job) : Job :=
  if rerun_failed = true ∧ job.display_name ∈ prev then
    { job with is_skip := true, skip_reason := "didn\x27t fail in the previous run" }
  else job

/-- Display names of the jobs a rerun-filtered catalog marks as skipped. -/
def rerun_skip_set (rerun_failed : Bool) (prev : List String) (catalog : List Job) : List String :=
  (((catalog.map (mark_rerun rerun_failed prev)).filter fun j => j.is_skip).map
    fun j => j.display_name)

/-- Python `str.isspace` for the default `strip` whitespace set. -/
def py_isspace (c : Char) : Bool :=
  c = ' ' ∨ c = '\t' ∨ c = '\n' ∨ c = '\r' ∨ c = '\x0b' ∨ c = '\x0c'

/-- Python `s.strip()`: remove leading and trailing whitespace. -/
def py_strip (s : String) : String :=
  ⟨((s.data.dropWhile py_isspace).reverse.dropWhile py_isspace).reverse⟩

/-- The suite Job as initialised in the dispatch loop of `run_tests`,
before any skip marking. -/
def suite_base_job (a : Args) (test_runner_name testpy_output_dir t : String) : Job :=
  { is_example := false, is_pyexample := false, display_name := t,
    tmp_file_name := testpy_output_dir ++ "/" ++ t ++ ".xml",
    shell_command := "utils/" ++ test_runner_name ++ " --test-name=" ++ t
      ++ (if a.multiple then "" else " --stop-on-failure")
      ++ " --fullness=" ++ a.fullness.text }

/-- The core-valgrind skip marking applied to a suite job
(`if args.valgrind and test in core_valgrind_skip_tests`). -/
def mark_valgrind_suite (a : Args) (core_valgrind_skip_tests : List String) (job : Job) : Job :=
  if a.valgrind = true ∧ job.display_name ∈ core_valgrind_skip_tests then
    { job with is_skip := true, skip_reason := "crashes valgrind" }
  else job

/-- Construction of one suite Job in the dispatch loop of `run_tests`
(empty names are not dispatched; valgrind skip, then rerun skip, in
source order). -/
def build_suite_job (a : Args) (test_runner_name : String)
    (core_valgrind_skip_tests : List String) (prev : PrevToSkip)
    (testpy_output_dir : String) (test : String) : Option Job :=
  let t := py_strip test
  if t.length ≠ 0 then
    some (mark_rerun a.rerun_failed prev.tests
      (mark_valgrind_suite a core_valgrind_skip_tests
        (suite_base_job a test_runner_name testpy_output_dir t)))
  else none

/-- One entry of `example_tests` after catalog loading: name, resolved
program invocation, the evaluated run conditions, the validated
fullness tier, and whether the program is runnable in this build. -/
structure ExampleEntry where
  name : String
  path : String
  do_run : Bool
  do_valgrind_run : Bool
  fullness : Fullness
  runnable : Bool
deriving DecidableEq, Repr

/-- Construction of one example Job in the dispatch loop of `run_tests`:
runnable and condition gate dispatch entirely; then valgrind skip,
rerun skip, and the fullness gating, in source order. -/
def build_example_job (a : Args) (prev : PrevToSkip) (e : ExampleEntry) : Option Job :=
  if e.runnable = true ∧ e.do_run = true then
    let job : Job :=
      { is_example := true, is_pyexample := false, display_name := e.name,
        tmp_file_name := "", shell_command := e.path }
    let job :=
      if a.valgrind = true ∧ e.do_valgrind_run = false then
        { job with is_skip := true, skip_reason := "skip in valgrind runs" }
      else job
    let job :=
      if a.rerun_failed = true ∧ e.name ∈ prev.examples then
        { job with is_skip := true, skip_reason := "didn\x27t fail in the previous run" }
      else job
    let job :=
      match fullness_skip a.fullness e.fullness with
      | some reason => { job with is_skip := true, skip_reason := reason }
      | none => job
    some job
  else none

/-- The final return of `run_tests`: 0 iff `passed + skipped == total`. -/
def run_exit_code (total_tests passed_tests skipped_tests : Nat) : Nat :=
  if passed_tests + skipped_tests = total_tests then 0 else 1

/-- The status the collector ends up assigning to an executed job, as a
function of the run configuration and the subprocess exit-code oracle
(the oracle takes the configuration because `run_job_synchronously`
changes the launched command when the valgrind wrapper is requested). -/
def executed_status (a : Args) (exec : Args → Job → Int) (job : Job) : Option Status :=
  match worker_step false (exec a) job with
  | .terminated => none
  | .pushed _ j => some (job_status j)


/-- The derived total of the summary counters. -/
def Counters.total (c : Counters) : Nat :=
  c.passed + c.skipped + c.failed + c.crashed + c.valgrind_errors

lemma worker_push_false (exec : Job → Int) (j : Job) (hb : j.is_break = false) :
    worker_push false exec j
      = [if j.is_skip then j else { j with returncode := exec j }] := by
  by_cases hs : j.is_skip <;>
    simp [worker_push, worker_step, hb, hs]

lemma worker_push_true (exec : Job → Int) (j : Job) (hb : j.is_break = false) :
    worker_push true exec j = [{ j with is_break := true }] := by
  simp [worker_push, worker_step, hb]

lemma count_step_break (c : Counters) (j : Job) (hb : j.is_break = true) :
    count_step c j = c := by
  simp [count_step, hb]

lemma record_step_break (tmp : Job → Option TmpFile) (j : Job) (hb : j.is_break = true) :
    record_step tmp j = .ok [] := by
  simp [record_step, hb]

/-- C3: for every executed (non-skipped) Job, the collector classifies
the subprocess exit code as: exit 0 yields Pass, exit 1 yields Fail,
exit 2 yields LeakCheckError (VALGR), and any other exit code (such as
139) yields Crash, both in the summary counters and in the report
record. -/
theorem c3_exit_code_classification (exec : Job → Int) (tmp : Job → Option TmpFile)
    (j : Job) (hb : j.is_break = false) (hs : j.is_skip = false)
    (hex : j.is_example = true) :
    (exec j = 0 →
      collect_counts (worker_outputs 1 exec [j]) = { passed := 1 }
      ∧ collect_entries tmp (worker_outputs 1 exec [j])
        = .ok [.record
            { kind := "Example", name := j.display_name, result := "PASS", reason := none }])
    ∧ (exec j = 1 →
      collect_counts (worker_outputs 1 exec [j]) = { failed := 1 }
      ∧ collect_entries tmp (worker_outputs 1 exec [j])
        = .ok [.record
            { kind := "Example", name := j.display_name, result := "FAIL", reason := none }])
    ∧ (exec j = 2 →
      collect_counts (worker_outputs 1 exec [j]) = { valgrind_errors := 1 }
      ∧ collect_entries tmp (worker_outputs 1 exec [j])
        = .ok [.record
            { kind := "Example", name := j.display_name, result := "VALGR", reason := none }])
    ∧ (exec j ≠ 0 → exec j ≠ 1 → exec j ≠ 2 →
      collect_counts (worker_outputs 1 exec [j]) = { crashed := 1 }
      ∧ collect_entries tmp (worker_outputs 1 exec [j])
        = .ok [.record
            { kind := "Example", name := j.display_name, result := "CRASH", reason := none }]) := by
  have hw : worker_outputs 1 exec [j] = [{ j with returncode := exec j }] := by
    simp [worker_outputs, worker_push, worker_step, hb, hs]
  refine ⟨fun h0 => ?_, fun h1 => ?_, fun h2 => ?_, fun h0 h1 h2 => ?_⟩ <;>
    constructor <;>
    simp [hw, collect_counts, count_step, collect_entries, record_step, job_status,
      classify_returncode, Status.text, hb, hs, hex, bind, Except.bind, pure, Except.pure, *]

/-- Witness for C3 at exit code 139: a crash is recorded. -/
theorem c3_witness :
    collect_counts (worker_outputs 1 (fun _ => 139) [{ display_name := "ex", is_example := true }])
      = { crashed := 1 }
    ∧ collect_entries (fun _ => none)
        (worker_outputs 1 (fun _ => 139) [{ display_name := "ex", is_example := true }])
      = .ok [.record { kind := "Example", name := "ex", result := "CRASH", reason := none }] :=
  (c3_exit_code_classification (fun _ => 139) (fun _ => none)
      { display_name := "ex", is_example := true } rfl rfl rfl).2.2.2
    (by decide) (by decide) (by decide)

/-- C5: a Job whose skip field is set before dispatch never launches a
subprocess (the worker pushes it back unchanged with `launched = false`,
independently of the subprocess oracle), and it is still routed through
the collector: it is counted as skipped and a SKIP record carrying its
reason is written to the Run Report. -/
theorem c5_skip_never_launches (exec exec' : Job → Int) (tmp : Job → Option TmpFile)
    (j : Job) (hb : j.is_break = false) (hs : j.is_skip = true) :
    worker_step false exec j = .pushed false j
    ∧ worker_step false exec j = worker_step false exec' j
    ∧ collect_counts [j] = { skipped := 1 }
    ∧ record_step tmp j
      = .ok [.record
          { kind := if j.is_example || j.is_pyexample then "Example" else "Test",
            name := j.display_name, result := "SKIP", reason := some j.skip_reason }] := by
  refine ⟨?_, ?_, ?_, ?_⟩
  · simp [worker_step, hb, hs]
  · simp [worker_step, hb, hs]
  · simp [collect_counts, count_step, hb, hs]
  · rcases Bool.eq_false_or_eq_true (j.is_example || j.is_pyexample) with hcase | hcase <;>
      simp [record_step, job_status, Status.text, hb, hs, hcase]

/-- Witness for C5: a concrete pre-skipped suite job. -/
theorem c5_witness :
    worker_step false (fun _ => 0)
        { display_name := "skipme", is_skip := true, skip_reason := "requires Python bindings" }
      = .pushed false
          { display_name := "skipme", is_skip := true, skip_reason := "requires Python bindings" }
    ∧ collect_counts
        [{ display_name := "skipme", is_skip := true, skip_reason := "requires Python bindings" }]
      = { skipped := 1 }
    ∧ record_step (fun _ => none)
        { display_name := "skipme", is_skip := true, skip_reason := "requires Python bindings" }
      = .ok [.record
          { kind := "Test", name := "skipme", result := "SKIP",
            reason := some "requires Python bindings" }] := by
  have h := c5_skip_never_launches (fun _ => 0) (fun _ => 1) (fun _ => none)
    { display_name := "skipme", is_skip := true, skip_reason := "requires Python bindings" }
    rfl rfl
  exact ⟨h.1, h.2.2.1, h.2.2.2⟩

/-- C7: an example entry with a fullness tier is executed exactly when
its tier is at or below the requested tier in the order
Quick < Extensive < TakesForever; an entry above the requested tier is
turned into a Skip whose reason names the requested tier. -/
theorem c7_fullness_inclusion :
    ∀ requested entry : Fullness,
      (fullness_skip requested entry = none ↔ entry.rank ≤ requested.rank)
      ∧ (requested.rank < entry.rank →
          fullness_skip requested entry
            = some ("skip " ++ entry.text ++ " examples when "
                ++ requested.text ++ " run selected"))
      ∧ ∀ name path : String,
          ∃ j, build_example_job { fullness := requested } { }
                { name := name, path := path, do_run := true, do_valgrind_run := true,
                  fullness := entry, runnable := true } = some j
            ∧ (j.is_skip = true ↔ requested.rank < entry.rank) := by
  intro requested entry
  refine ⟨?_, ?_, ?_⟩
  · cases requested <;> cases entry <;> decide
  · cases requested <;> cases entry <;> decide
  · intro name path
    refine ⟨_, rfl, ?_⟩
    cases requested <;> cases entry <;>
      simp [build_example_job, fullness_skip, Fullness.rank]

/-- Witness for C7: an Extensive entry is skipped on a Quick run with a
reason naming the requested tier. -/
theorem c7_witness :
    fullness_skip Fullness.QUICK Fullness.EXTENSIVE
      = some ("skip " ++ Fullness.EXTENSIVE.text ++ " examples when "
          ++ Fullness.QUICK.text ++ " run selected") :=
  (c7_fullness_inclusion .QUICK .EXTENSIVE).2.1 (by decide)

/-- C8: the run's exit code is 0 iff the total number of dispatched
units equals pass + skip, and 1 otherwise. -/
theorem c8_exit_code_iff (total_tests passed_tests skipped_tests : Nat) :
    (run_exit_code total_tests passed_tests skipped_tests = 0
      ↔ passed_tests + skipped_tests = total_tests)
    ∧ (run_exit_code total_tests passed_tests skipped_tests = 1
      ↔ passed_tests + skipped_tests ≠ total_tests) := by
  unfold run_exit_code
  split <;> simp_all

/-- Witness for C8: 3 passed + 2 skipped of 5 dispatched exits 0. -/
theorem c8_witness : run_exit_code 5 3 2 = 0 :=
  (c8_exit_code_iff 5 3 2).1.mpr (by decide)

/-- C9: the rerun filter is idempotent: marking an already rerun-marked
catalog against the same prior skip set changes nothing, and the skip
set it yields is the same both times. -/
theorem c9_rerun_filter_idempotent (rerun_failed : Bool) (prev : List String)
    (catalog : List Job) :
    (catalog.map (mark_rerun rerun_failed prev)).map (mark_rerun rerun_failed prev)
      = catalog.map (mark_rerun rerun_failed prev)
    ∧ rerun_skip_set rerun_failed prev (catalog.map (mark_rerun rerun_failed prev))
      = rerun_skip_set rerun_failed prev catalog := by
  have key : ∀ j : Job,
      mark_rerun rerun_failed prev (mark_rerun rerun_failed prev j)
        = mark_rerun rerun_failed prev j := by
    intro j
    by_cases h : rerun_failed = true ∧ j.display_name ∈ prev
    · simp [mark_rerun, h]
    · simp [mark_rerun, h]
  have h1 : (catalog.map (mark_rerun rerun_failed prev)).map (mark_rerun rerun_failed prev)
      = catalog.map (mark_rerun rerun_failed prev) := by
    induction catalog with
    | nil => simp
    | cons j rest ih => simp [key j, ih]
  refine ⟨h1, ?_⟩
  simp only [rerun_skip_set]
  rw [h1]

/-- C10: the outcome classification of an executed job by the collector
depends only on the subprocess exit code, not on whether the leak-check
wrapper was requested; in particular exit code 2 is classified VALGR
even when `args.valgrind` is false. -/
theorem c10_wrapper_independent (exec : Args → Job → Int) (a a' : Args) (j : Job)
    (hb : j.is_break = false) (hs : j.is_skip = false) (he : exec a j = exec a' j) :
    executed_status a exec j = some (classify_returncode (exec a j))
    ∧ executed_status a exec j = executed_status a' exec j
    ∧ (exec a j = 2 → a.valgrind = false →
        executed_status a exec j = some Status.VALGR) := by
  have h1 : executed_status a exec j = some (classify_returncode (exec a j)) := by
    simp [executed_status, worker_step, hb, hs, job_status]
  refine ⟨h1, ?_, ?_⟩
  · have h2 : executed_status a' exec j = some (classify_returncode (exec a' j)) := by
      simp [executed_status, worker_step, hb, hs, job_status]
    rw [h1, h2, he]
  · intro h2 _
    rw [h1, h2]
    decide

/-- Witness for C10: exit code 2 without the valgrind wrapper is still
classified VALGR. -/
theorem c10_witness :
    executed_status { valgrind := false } (fun _ _ => 2) { display_name := "u" }
      = some Status.VALGR :=
  (c10_wrapper_independent (fun _ _ => 2) { valgrind := false } { valgrind := true }
      { display_name := "u" } rfl rfl rfl).2.2 rfl rfl

lemma worker_outputs_decomp (K : Nat) (exec : Job → Int) (jobs : List Job)
    (h : ∀ j ∈ jobs, j.is_break = false) :
    worker_outputs K exec jobs
      = worker_outputs_run exec (jobs.take K)
        ++ (jobs.drop K).map (fun j => { j with is_break := true }) := by
  induction jobs generalizing K with
  | nil => simp [worker_outputs, worker_outputs_run]
  | cons j rest ih =>
    have hj : j.is_break = false := h j (List.mem_cons_self j rest)
    have hrest : ∀ x ∈ rest, x.is_break = false := fun x hx => h x (List.mem_cons_of_mem j hx)
    cases K with
    | zero =>
      simp [worker_outputs, worker_outputs_run, worker_push_true exec j hj, ih 0 hrest]
    | succ K =>
      simp only [worker_outputs, worker_outputs_run, List.take_succ_cons, List.drop_succ_cons,
        Nat.succ_sub_one]
      rw [ih K hrest, List.append_assoc]
      rfl

lemma worker_outputs_run_not_break (exec : Job → Int) (jobs : List Job)
    (h : ∀ j ∈ jobs, j.is_break = false) :
    ∀ x ∈ worker_outputs_run exec jobs, x.is_break = false := by
  induction jobs with
  | nil => simp [worker_outputs_run]
  | cons j rest ih =>
    have hj : j.is_break = false := h j (List.mem_cons_self j rest)
    have hrest : ∀ x ∈ rest, x.is_break = false := fun x hx => h x (List.mem_cons_of_mem j hx)
    intro x hx
    rw [worker_outputs_run, worker_push_false exec j hj] at hx
    rcases List.mem_append.mp hx with hx | hx
    · rcases List.mem_singleton.mp hx with rfl
      by_cases hs : j.is_skip <;> simp [hs, hj]
    · exact ih hrest x hx

lemma worker_outputs_run_length (exec : Job → Int) (jobs : List Job)
    (h : ∀ j ∈ jobs, j.is_break = false) :
    (worker_outputs_run exec jobs).length = jobs.length := by
  induction jobs with
  | nil => rfl
  | cons j rest ih =>
    have hj : j.is_break = false := h j (List.mem_cons_self j rest)
    have hrest : ∀ x ∈ rest, x.is_break = false := fun x hx => h x (List.mem_cons_of_mem j hx)
    rw [worker_outputs_run, worker_push_false exec j hj]
    simp [ih hrest]

lemma count_step_total (c : Counters) (j : Job) (hb : j.is_break = false) :
    (count_step c j).total = c.total + 1 := by
  unfold count_step Counters.total
  simp only [hb, Bool.false_eq_true, if_false]
  split_ifs <;> simp <;> omega

lemma foldl_count_not_break (jobs : List Job) (h : ∀ j ∈ jobs, j.is_break = false) :
    ∀ c : Counters, (jobs.foldl count_step c).total = c.total + jobs.length := by
  induction jobs with
  | nil => simp
  | cons j rest ih =>
    have hj : j.is_break = false := h j (List.mem_cons_self j rest)
    have hrest : ∀ x ∈ rest, x.is_break = false := fun x hx => h x (List.mem_cons_of_mem j hx)
    intro c
    rw [List.foldl_cons, ih hrest, count_step_total c j hj]
    simp [Nat.add_comm, Nat.add_assoc, Nat.add_left_comm]

lemma foldl_count_break (jobs : List Job) (h : ∀ j ∈ jobs, j.is_break = true) :
    ∀ c : Counters, jobs.foldl count_step c = c := by
  induction jobs with
  | nil => intro c; rfl
  | cons j rest ih =>
    have hj : j.is_break = true := h j (List.mem_cons_self j rest)
    have hrest : ∀ x ∈ rest, x.is_break = true := fun x hx => h x (List.mem_cons_of_mem j hx)
    intro c
    rw [List.foldl_cons, count_step_break c j hj, ih hrest]

lemma collect_counts_append_break (xs ys : List Job) (h : ∀ j ∈ ys, j.is_break = true) :
    collect_counts (xs ++ ys) = collect_counts xs := by
  unfold collect_counts
  rw [List.foldl_append, foldl_count_break ys h]

lemma collect_entries_all_break (tmp : Job → Option TmpFile) (ys : List Job)
    (h : ∀ j ∈ ys, j.is_break = true) :
    collect_entries tmp ys = .ok [] := by
  induction ys with
  | nil => rfl
  | cons j rest ih =>
    have hj : j.is_break = true := h j (List.mem_cons_self j rest)
    have hrest : ∀ x ∈ rest, x.is_break = true := fun x hx => h x (List.mem_cons_of_mem j hx)
    simp [collect_entries, record_step_break tmp j hj, ih hrest, bind, Except.bind, pure,
      Except.pure]

lemma collect_entries_append_break (tmp : Job → Option TmpFile) (xs ys : List Job)
    (h : ∀ j ∈ ys, j.is_break = true) :
    collect_entries tmp (xs ++ ys) = collect_entries tmp xs := by
  induction xs with
  | nil => simpa using collect_entries_all_break tmp ys h
  | cons x xs ih =>
    cases hrec : record_step tmp x <;>
      simp [collect_entries, hrec, ih, bind, Except.bind]

lemma map_break_all_break (jobs : List Job) :
    ∀ x ∈ jobs.map (fun j => { j with is_break := true }), x.is_break = true := by
  intro x hx
  rcases List.mem_map.mp hx with ⟨j', _, rfl⟩
  rfl

lemma collect_counts_worker_outputs (K : Nat) (exec : Job → Int) (jobs : List Job)
    (h : ∀ j ∈ jobs, j.is_break = false) :
    collect_counts (worker_outputs K exec jobs)
      = collect_counts (worker_outputs_run exec (jobs.take K)) := by
  rw [worker_outputs_decomp K exec jobs h]
  exact collect_counts_append_break _ _ (map_break_all_break _)

/-- C1 (amended): every dispatched Job yields exactly one item on the
results queue, so the run drains and terminates even under cancellation;
but a Job not yet started when the cancellation signal is set is handed
back marked `is_break` and is ignored by the collector: only the K
started jobs contribute report entries and counter updates, and the
N - K cancelled jobs are silently dropped (they are never recorded as
Skip). -/
theorem c1_cancellation_amended (K : Nat) (exec : Job → Int) (tmp : Job → Option TmpFile)
    (jobs : List Job) (h : ∀ j ∈ jobs, j.is_break = false) :
    worker_outputs K exec jobs
      = worker_outputs_run exec (jobs.take K)
        ++ (jobs.drop K).map (fun j => { j with is_break := true })
    ∧ (worker_outputs K exec jobs).length = jobs.length
    ∧ collect_counts (worker_outputs K exec jobs)
      = collect_counts (worker_outputs_run exec (jobs.take K))
    ∧ collect_entries tmp (worker_outputs K exec jobs)
      = collect_entries tmp (worker_outputs_run exec (jobs.take K)) := by
  have htake : ∀ j ∈ jobs.take K, j.is_break = false :=
    fun j hj => h j (List.take_subset K jobs hj)
  have hdec := worker_outputs_decomp K exec jobs h
  refine ⟨hdec, ?_, ?_, ?_⟩
  · rw [hdec, List.length_append, worker_outputs_run_length exec _ htake, List.length_map,
      List.length_take, List.length_drop]
    omega
  · exact collect_counts_worker_outputs K exec jobs h
  · rw [hdec]
    exact collect_entries_append_break tmp _ _ (map_break_all_break _)

/-- Witness for C1 (amended): two dispatched example jobs, cancellation
after the first has started. -/
theorem c1_witness :
    worker_outputs 1 (fun _ => 0)
        [{ display_name := "A", is_example := true }, { display_name := "B", is_example := true }]
      = worker_outputs_run (fun _ => 0)
          ([({ display_name := "A", is_example := true } : Job),
            { display_name := "B", is_example := true }].take 1)
        ++ ([({ display_name := "A", is_example := true } : Job),
            { display_name := "B", is_example := true }].drop 1).map
            (fun j => { j with is_break := true })
    ∧ (worker_outputs 1 (fun _ => 0)
        [{ display_name := "A", is_example := true },
         { display_name := "B", is_example := true }]).length
      = [({ display_name := "A", is_example := true } : Job),
         { display_name := "B", is_example := true }].length
    ∧ collect_counts (worker_outputs 1 (fun _ => 0)
        [{ display_name := "A", is_example := true },
         { display_name := "B", is_example := true }])
      = collect_counts (worker_outputs_run (fun _ => 0)
          ([({ display_name := "A", is_example := true } : Job),
            { display_name := "B", is_example := true }].take 1))
    ∧ collect_entries (fun _ => none) (worker_outputs 1 (fun _ => 0)
        [{ display_name := "A", is_example := true },
         { display_name := "B", is_example := true }])
      = collect_entries (fun _ => none) (worker_outputs_run (fun _ => 0)
          ([({ display_name := "A", is_example := true } : Job),
            { display_name := "B", is_example := true }].take 1)) :=
  c1_cancellation_amended 1 (fun _ => 0) (fun _ => none)
    [{ display_name := "A", is_example := true }, { display_name := "B", is_example := true }]
    (by decide)

/-- Counterexample for C1 as stated: dispatching N = 2 example jobs and
cancelling after K = 1 has started yields exactly one recorded outcome
(a PASS for the started job), not two; the not-yet-started job is not
recorded as Skip with reason "interrupted" (no such record exists). -/
theorem c1_counterexample :
    collect_entries (fun _ => none)
        (worker_outputs 1 (fun _ => 0)
          [{ display_name := "A", is_example := true },
           { display_name := "B", is_example := true }])
      = Except.ok [Entry.record { kind := "Example", name := "A", result := "PASS", reason := none }]
    ∧ [Entry.record { kind := "Example", name := "A", result := "PASS", reason := none }].length ≠ 2
    ∧ Entry.record { kind := "Example", name := "B", result := "SKIP", reason := some "interrupted" }
        ∉ [Entry.record { kind := "Example", name := "A", result := "PASS", reason := none }] :=
  ⟨rfl, by decide, by decide⟩

/-- C2 (amended): in a run where the cancellation signal is never set
(K at least the number of dispatched jobs), the number of dispatched
units equals pass + skip + fail + crash + leakError; in general the
counter total equals the number of started jobs only. -/
theorem c2_accounting_amended (K : Nat) (exec : Job → Int) (jobs : List Job)
    (h : ∀ j ∈ jobs, j.is_break = false) :
    (collect_counts (worker_outputs K exec jobs)).total = (jobs.take K).length
    ∧ (jobs.length ≤ K →
        (collect_counts (worker_outputs K exec jobs)).total = jobs.length) := by
  have htake : ∀ j ∈ jobs.take K, j.is_break = false :=
    fun j hj => h j (List.take_subset K jobs hj)
  have hmain : (collect_counts (worker_outputs K exec jobs)).total = (jobs.take K).length := by
    rw [collect_counts_worker_outputs K exec jobs h]
    unfold collect_counts
    rw [foldl_count_not_break _ (worker_outputs_run_not_break exec _ htake),
      worker_outputs_run_length exec _ htake]
    simp [Counters.total]
  refine ⟨hmain, fun hK => ?_⟩
  rw [hmain, List.length_take]
  exact Nat.min_eq_right hK

/-- Witness for C2 (amended): an uncancelled run of two jobs (one
executed, one pre-skipped) has counter total 2. -/
theorem c2_witness :
    (collect_counts (worker_outputs 2 (fun _ => 1)
        [{ display_name := "A" },
         { display_name := "B", is_skip := true, skip_reason := "requires Python bindings" }])).total
      = ([({ display_name := "A" } : Job),
          { display_name := "B", is_skip := true, skip_reason := "requires Python bindings" }]).length :=
  (c2_accounting_amended 2 (fun _ => 1)
      [{ display_name := "A" },
       { display_name := "B", is_skip := true, skip_reason := "requires Python bindings" }]
      (by decide)).2 (by decide)

/-- Counterexample for C2 as stated: one dispatched job, cancellation
set before it starts: total dispatched is 1 but every counter is 0, so
total does not equal pass + skip + fail + crash + leakError. -/
theorem c2_counterexample :
    [({ display_name := "A", is_example := true } : Job)].length = 1
    ∧ (collect_counts (worker_outputs 0 (fun _ => 0)
        [{ display_name := "A", is_example := true }])).total = 0
    ∧ (0 : Nat) ≠ 1 := by
  decide

/-- Counterexample for C4 as stated: a suite job that exits 0 with a
missing per-unit result document makes the collector raise a
file-not-found error (aborting the collection loop, so a second drained
job is never processed), instead of recording a Crash outcome and
continuing. -/
theorem c4_counterexample :
    record_step (fun _ => none)
        { display_name := "suite-a", tmp_file_name := "out/suite-a.xml" }
      = Except.error ("FileNotFoundError: " ++ "out/suite-a.xml")
    ∧ collect_entries (fun _ => none)
        [{ display_name := "suite-a", tmp_file_name := "out/suite-a.xml" },
         { display_name := "suite-b", tmp_file_name := "out/suite-b.xml" }]
      = Except.error ("FileNotFoundError: " ++ "out/suite-a.xml") :=
  ⟨rfl, rfl⟩

/-- C4 (amended): for a suite job, an exit code other than 0/1/2 makes
the collector synthesize a minimal Crash record and continue; exit
0/1/2 with a missing temp result document raises the file-open error to
the caller; exit 0 with a malformed document appends the contents
verbatim and keeps the exit-code classification (still counted as a
pass). -/
theorem c4_suite_result_amended (tmp : Job → Option TmpFile) (j : Job)
    (hb : j.is_break = false) (hs : j.is_skip = false)
    (hex : j.is_example = false) (hpy : j.is_pyexample = false) :
    (¬ (j.returncode = 0 ∨ j.returncode = 1 ∨ j.returncode = 2) →
      record_step tmp j
        = .ok [.record
            { kind := "Test", name := j.display_name, result := "CRASH", reason := none }])
    ∧ ((j.returncode = 0 ∨ j.returncode = 1 ∨ j.returncode = 2) → tmp j = none →
      record_step tmp j = .error ("FileNotFoundError: " ++ j.tmp_file_name))
    ∧ (∀ s, j.returncode = 0 → tmp j = some (.text s) →
      record_step tmp j = .ok [.raw s] ∧ count_step {} j = { passed := 1 }) := by
  refine ⟨?_, ?_, ?_⟩
  · intro hrc
    simp [record_step, hb, hs, hex, hpy, hrc]
  · intro hrc htmp
    simp [record_step, hb, hs, hex, hpy, hrc, htmp]
  · intro s h0 htmp
    constructor
    · simp [record_step, job_status, classify_returncode, hb, hs, hex, hpy, h0, htmp]
    · simp [count_step, hb, hs, h0]

/-- Witness for C4 (amended): exit 139 yields a synthesized Crash
record; exit 0 with a missing document raises. -/
theorem c4_witness :
    record_step (fun _ => none)
        { display_name := "s", tmp_file_name := "f", returncode := 139 }
      = .ok [.record { kind := "Test", name := "s", result := "CRASH", reason := none }] :=
  (c4_suite_result_amended (fun _ => none)
      { display_name := "s", tmp_file_name := "f", returncode := 139 }
      rfl rfl rfl rfl).1 (by decide)

/-- C6: the rerun filter extracts exactly the names recorded as PASS or
SKIP in the prior report; a dispatched suite whose (stripped) name is in
that set is converted to a Skip whose reason says it did not fail in
the previous run, and a suite whose name is not in that set (including names absent
from the prior report) is dispatched eligible for execution. -/
theorem c6_rerun_filter (r : PriorReport) (a : Args) (test_runner_name : String)
    (core_valgrind_skip_tests : List String) (testpy_output_dir : String) (t : String)
    (hrf : a.rerun_failed = true) (hv : a.valgrind = false) (ht : (py_strip t).length ≠ 0) :
    (∀ n, n ∈ (load_previously_successful_tests r).tests
      ↔ ∃ res, (n, res) ∈ r.tests ∧ (res = "PASS" ∨ res = "SKIP"))
    ∧ (py_strip t ∈ (load_previously_successful_tests r).tests →
        ∃ j, build_suite_job a test_runner_name core_valgrind_skip_tests
              (load_previously_successful_tests r) testpy_output_dir t = some j
          ∧ j.is_skip = true ∧ j.skip_reason = "didn\x27t fail in the previous run"
          ∧ j.display_name = py_strip t)
    ∧ (py_strip t ∉ (load_previously_successful_tests r).tests →
        ∃ j, build_suite_job a test_runner_name core_valgrind_skip_tests
              (load_previously_successful_tests r) testpy_output_dir t = some j
          ∧ j.is_skip = false ∧ j.display_name = py_strip t) := by
  have hbuild : build_suite_job a test_runner_name core_valgrind_skip_tests
      (load_previously_successful_tests r) testpy_output_dir t
      = some (mark_rerun a.rerun_failed (load_previously_successful_tests r).tests
          (mark_valgrind_suite a core_valgrind_skip_tests
            (suite_base_job a test_runner_name testpy_output_dir (py_strip t)))) := by
    simp [build_suite_job, ht]
  have hvalg : mark_valgrind_suite a core_valgrind_skip_tests
      (suite_base_job a test_runner_name testpy_output_dir (py_strip t))
      = suite_base_job a test_runner_name testpy_output_dir (py_strip t) := by
    simp [mark_valgrind_suite, hv]
  refine ⟨?_, ?_, ?_⟩
  · intro n
    simp only [load_previously_successful_tests, previously_successful, List.mem_map,
      List.mem_filter, decide_eq_true_eq, List.mem_cons, List.mem_singleton,
      List.not_mem_nil, or_false]
    constructor
    · rintro ⟨⟨n', res⟩, ⟨hmem, hres⟩, rfl⟩
      exact ⟨res, hmem, hres⟩
    · rintro ⟨res, hmem, hres⟩
      exact ⟨(n, res), ⟨hmem, hres⟩, rfl⟩
  · intro hmem
    refine ⟨_, hbuild, ?_, ?_, ?_⟩ <;>
      rw [hvalg] <;>
      simp [mark_rerun, suite_base_job, hrf, hmem]
  · intro hmem
    refine ⟨_, hbuild, ?_, ?_⟩ <;>
      rw [hvalg] <;>
      simp [mark_rerun, suite_base_job, hrf, hmem]

/-- Witness for C6: with a prior report {A: PASS, B: FAIL, C: SKIP},
dispatching suite A under rerun-failed marks it skipped. -/
theorem c6_witness :
    ∃ j, build_suite_job { rerun_failed := true } "test-runner" []
          (load_previously_successful_tests
            { tests := [("A", "PASS"), ("B", "FAIL"), ("C", "SKIP")], examples := [] })
          "out" "A" = some j
      ∧ j.is_skip = true ∧ j.skip_reason = "didn\x27t fail in the previous run"
      ∧ j.display_name = py_strip "A" :=
  (c6_rerun_filter
      { tests := [("A", "PASS"), ("B", "FAIL"), ("C", "SKIP")], examples := [] }
      { rerun_failed := true } "test-runner" [] "out" "A" rfl rfl (by decide)).2.1
    (by decide)

end TestPy
